import Mathlib

/-!
Verification development for the etcd must-gather diagnostic script
(`etcd-ocp-diag.py`).  The script's pure log-scanning and aggregation
core is shallowly embedded here: file contents and lines are `List Char`,
Python floats are modelled as `ℚ` (exact arithmetic; float rounding is not
modelled), and Python exceptions are modelled as `Except Unit`.
Each embedded definition carries a comment naming the source function it
translates.
-/

/-- Strings are modelled as lists of characters; Python string comparison
and containment are code-point based, matching `Char` comparisons. -/
abbrev Str := List Char

/-- Python's `pat in s` substring containment test (case-sensitive). -/
def containsSub (pat : Str) (s : Str) : Bool :=
  match s with
  | [] => pat.isEmpty
  | _ :: rest => pat.isPrefixOf s || containsSub pat rest

/-- Fuelled helper for `countOccurrences`: scans left to right, and on a
match skips the whole pattern (non-overlapping occurrences), exactly like
Python's `str.count`.  The fuel is the length of the scanned list, which
suffices for a non-empty pattern. -/
def countOccAux (pat : Str) : Nat → Str → Nat
  | 0, _ => 0
  | _ + 1, [] => 0
  | fuel + 1, c :: rest =>
    if pat.isPrefixOf (c :: rest) then
      1 + countOccAux pat fuel ((c :: rest).drop pat.length)
    else
      countOccAux pat fuel rest

/-- Python's `s.count(pat)`: number of non-overlapping occurrences of
`pat` in `s` (for the empty pattern Python returns `len(s) + 1`). -/
def countOccurrences (pat : Str) (s : Str) : Nat :=
  if pat.isEmpty then s.length + 1 else countOccAux pat s.length s

/-- Python's `s.removesuffix(pat)`: drops `pat` when it is a suffix,
otherwise returns `s` unchanged. -/
def removeSuffix (pat : Str) (s : Str) : Str :=
  if pat.isSuffixOf s then s.take (s.length - pat.length) else s

/-- Python's `s.split(c)` for a one-character separator: every occurrence
splits, empty parts are kept. -/
def splitOnChar (sep : Char) : Str → List Str
  | [] => [[]]
  | a :: r =>
    if a = sep then [] :: splitOnChar sep r
    else
      match splitOnChar sep r with
      | h :: t => (a :: h) :: t
      | [] => [[a]]

/-- Python's `s <= t` on strings: lexicographic comparison by code point. -/
def lexLe : Str → Str → Bool
  | [], _ => true
  | _ :: _, [] => false
  | a :: as, b :: bs =>
    if a.toNat < b.toNat then true
    else if b.toNat < a.toNat then false
    else lexLe as bs

/-- Numeric value of a digit string (most significant digit first). -/
def natOfDigits (l : Str) : Nat :=
  l.foldl (fun acc c => acc * 10 + (c.toNat - 48)) 0

/-- All characters are ASCII digits. -/
def allDigits (l : Str) : Bool := l.all (fun c => c.isDigit)

/-- Unsigned part of Python's `float(s)` restricted to plain decimal
literals `digits`, `digits.digits`, `digits.` or `.digits` (at least one
digit overall).  Exponents, `inf`/`nan`, underscores and surrounding
whitespace — which never occur in the duration tokens this script feeds
to `float` — are not modelled and would be rejected here. -/
def parseDecAux (s : Str) : Option ℚ :=
  match splitOnChar '.' s with
  | [ip] =>
    if ip.isEmpty then none
    else if allDigits ip then some ((natOfDigits ip : ℚ)) else none
  | [ip, fp] =>
    if ip.isEmpty && fp.isEmpty then none
    else if allDigits ip && allDigits fp then
      some ((natOfDigits ip : ℚ) + (natOfDigits fp : ℚ) / ((10 : ℚ) ^ fp.length))
    else none
  | _ => none

/-- Python's `float(s)` on plain decimal literals, with an optional sign;
`none` models the `ValueError` raised on anything else. -/
def parseDecimal : Str → Option ℚ
  | '-' :: r => (parseDecAux r).map (fun q => -q)
  | '+' :: r => parseDecAux r
  | s => parseDecAux s

/-- The token `"ms"`. -/
def msTok : Str := ("ms").data

/-- The token `"m"`. -/
def mTok : Str := ("m").data

/-- The token `"s"`. -/
def sTok : Str := ("s").data

/-- The fixed catalog of literal error strings searched by `etcd_errors`
(source lines 65–83). -/
def etcd_error_list : List Str :=
  [ ("waiting for ReadIndex response took too long, retrying").data
  , ("etcdserver: request timed out").data
  , ("slow fdatasync").data
  , ("apply request took too long").data
  , ("leader is overloaded likely from slow disk").data
  , ("local node might have slow network").data
  , ("elected leader").data
  , ("lost leader").data
  , ("wal: sync duration").data
  , ("the clock difference against peer").data
  , ("lease not found").data
  , ("rafthttp: failed to read").data
  , ("server is likely overloaded").data
  , ("lost the tcp streaming").data
  , ("sending buffer is full").data
  , ("health errors").data
  , ("request stats").data ]

/-- Total count accumulated by `etcd_errors` for one pod and one catalog
pattern: the `(pod, pattern)` dictionary entry sums `content.count(pattern)`
over the pod's scanned file contents (source lines 103–126).  `files` is
the list of whole-file contents in scan order. -/
def tallyTotal (files : List Str) (pat : Str) : Nat :=
  (files.map (fun content => countOccurrences pat content)).sum

/-- The Error Tally rows produced by `etcd_errors` for one pod: one
`(pattern, count)` pair per catalog pattern whose accumulated count is
positive (a dictionary key is only ever created from a positive per-file
count, so a pattern appears iff its total is positive, and then with the
full total). -/
def etcdTally (files : List Str) : List (Str × Nat) :=
  etcd_error_list.filterMap (fun p =>
    if 0 < tallyTotal files p then some (p, tallyTotal files p) else none)

/-- Number of scanned lines containing the pattern as a substring.
Modelled from the spec: the spec's Error Tally property counts *lines*
("the exact number of scanned lines for P containing E as a substring");
this definition follows those words so it can be compared with the
source's `content.count`-based `tallyTotal`. -/
def linesContainingCount (pat : Str) (files : List Str) : Nat :=
  (files.map (fun content =>
    ((splitOnChar '\n' content).filter (fun l => containsSub pat l)).length)).sum

/-- Model of `_convert_took_to_ms` (source lines 139–159).  The branch
conditions are Python `in` substring tests in source order: `"ms"` first,
then `"m"`, then `"s"`, with a final `return 0.0`.  `Except.error`
models the `ValueError` that `float` raises on a malformed numeric part,
and the unpacking error when `split("m")` does not yield two parts. -/
def convert_took_to_ms (t : Str) : Except Unit ℚ :=
  if containsSub msTok t then
    match parseDecimal (removeSuffix msTok t) with
    | some v => .ok v
    | none => .error ()
  else if containsSub mTok t then
    match splitOnChar 'm' t with
    | [a, b] =>
      match parseDecimal a, parseDecimal (removeSuffix sTok b) with
      | some x, some y => .ok (x * 60000 + y * 1000)
      | _, _ => .error ()
    | _ => .error ()
  else if containsSub sTok t then
    match parseDecimal (removeSuffix sTok t) with
    | some v => .ok (v * 1000)
    | none => .error ()
  else .ok 0

/-- One step of the backtracking semantics of the tail `\.+(?!\.gz)` of
the rotation-filename regex, entered after at least one literal dot has
been consumed: the position matches if the negative lookahead `(?!\.gz)`
holds here, and otherwise the engine may consume one more dot and retry. -/
def rotDots : Str → Bool
  | [] => true
  | c :: r =>
    if c = '.' && (match r with | 'g' :: 'z' :: _ => true | _ => false) then
      if c = '.' then rotDots r else false
    else true

/-- Matches the suffix `\.log\.+(?!\.gz)` of the rotation regex starting
at the current position: a literal `.log`, then `rotDots` after the first
following dot. -/
def rotAfterDigit : Str → Bool
  | '.' :: 'l' :: 'o' :: 'g' :: '.' :: r => rotDots r
  | _ => false

/-- Python's `re.search(r"[0-9]\.log\.+(?!\.gz)", name)` as used by
`get_rotated_logs` (source line 350): the filename contains a digit
followed by `.log` followed by at least one dot, with the (ineffective,
see the C4 counterexample) anti-`.gz` lookahead applied at some
backtracking depth of the dot run. -/
def rotMatch : Str → Bool
  | [] => false
  | c :: rest => (c.isDigit && rotAfterDigit rest) || rotMatch rest

/-- Numeric image of `datetime.min` (0001-01-01 00:00:00) under the
`YYYYMMDDHHMMSS` digit-string encoding used by `findRotTs`. -/
def minDatetime : Nat := 10101000000

/-- Attempts to match `\d{8}-\d{6}` at the current position and returns
the fourteen digits as a number.  For datetimes that `strptime` accepts,
ordering of these numbers coincides with datetime ordering, because the
encoding is a fixed-width `(Y, M, D, H, M, S)` tuple. -/
def rotTsAt (s : Str) : Option Nat :=
  let d8 := s.take 8
  let rest := s.drop 8
  if d8.length = 8 && allDigits d8 then
    match rest with
    | '-' :: r2 =>
      let d6 := r2.take 6
      if d6.length = 6 && allDigits d6 then some (natOfDigits (d8 ++ d6)) else none
    | _ => none
  else none

/-- First match of `re.search(r"\d{8}-\d{6}", path)` in `extract_datetime`
(source lines 359–368), as a `YYYYMMDDHHMMSS` number. -/
def findRotTs : Str → Option Nat
  | [] => none
  | c :: rest =>
    match rotTsAt (c :: rest) with
    | some v => some v
    | none => findRotTs rest

/-- Model of `extract_datetime`: the parsed timestamp, or `datetime.min`
when the filename contains no `\d{8}-\d{6}` fragment.  `strptime`'s
validation (it raises on an out-of-range field such as month 00) is not
modelled; every concrete input used below is a valid datetime. -/
def extract_datetime (s : Str) : Nat := (findRotTs s).getD minDatetime

/-- Model of `get_rotated_logs` (source lines 342–357) applied to a
directory listing of candidate filenames: keep the names matching the
rotation regex, and sort them by `extract_datetime` with Python's stable
`sorted` (modelled by `List.insertionSort`, which is also stable for this
tie-breaking direction).  The source computes the sort key on the full
path string; the pod directory prefix of every path is the same, so the
key is determined by the filename, which is what the listing holds here.
The `None` returned for an empty directory is normalised to `[]`. -/
def get_rotated_logs (listing : List Str) : List Str :=
  List.insertionSort (fun a b => extract_datetime a ≤ extract_datetime b)
    (listing.filter (fun n => rotMatch n))

/-- Body of a JSON string literal: characters up to the closing quote.
Escape sequences are not modelled (none of the etcd payload fragments
this development evaluates contain them); a backslash makes the decode
fail. -/
def scanStrBody : Str → Option (Str × Str)
  | [] => none
  | c :: r =>
    if c = '"' then some ([], r)
    else if c = '\\' then none
    else
      match scanStrBody r with
      | some (sres, rest) => some (c :: sres, rest)
      | none => none

/-- A quoted JSON string starting at the current position. -/
def scanQuoted : Str → Option (Str × Str)
  | '"' :: r => scanStrBody r
  | _ => none

/-- One `"key":"value"` pair of a flat JSON object. -/
def parsePair (s : Str) : Option ((Str × Str) × Str) :=
  match scanQuoted s with
  | some (k, r1) =>
    match r1 with
    | ':' :: r2 =>
      match scanQuoted r2 with
      | some (v, r3) => some ((k, v), r3)
      | none => none
    | _ => none
  | none => none

/-- Comma-separated pairs followed by the closing brace, which must end
the span (fuelled by the span length). -/
def parsePairsAux : Nat → Str → Option (List (Str × Str))
  | 0, _ => none
  | fuel + 1, s =>
    match parsePair s with
    | some (kv, r) =>
      match r with
      | '\x7d' :: rest => if rest.isEmpty then some [kv] else none
      | ',' :: r2 =>
        match parsePairsAux fuel r2 with
        | some kvs => some (kv :: kvs)
        | none => none
      | _ => none
    | none => none

/-- Model of `json.loads` on the brace-delimited span, restricted to the
flat string-valued objects the etcd log payloads in this development use
(no nesting, no numbers, no whitespace, no escapes).  `none` models the
`ValueError` swallowed by `extract_json_objects`; every concrete span
appearing below decodes (or fails to decode) identically in Python. -/
def parseJsonFlat (s : Str) : Option (List (Str × Str)) :=
  match s with
  | '\x7b' :: r =>
    match r with
    | '\x7d' :: rest => if rest.isEmpty then some [] else none
    | _ => parsePairsAux s.length r
  | _ => none

/-- The span matched by the greedy regex `r"{.*}"` on one line: from the
first `{` to the last `}` (when a `}` follows the first `{`).  Because
the first match swallows every later `}` of the line, `re.finditer`
yields at most this one span, so a line produces at most one decoded
object. -/
def extractSpan (line : Str) : Option Str :=
  match line.dropWhile (fun c => c ≠ '\x7b') with
  | [] => none
  | l =>
    match (l.reverse.dropWhile (fun c => c ≠ '\x7d')).reverse with
    | [] => none
    | r => some r

/-- Model of `extract_json_objects` (source lines 19–32) specialised to
one line: the decoded object of the greedy brace span, if any. -/
def extractJsonLine (line : Str) : Option (List (Str × Str)) :=
  match extractSpan line with
  | some span => parseJsonFlat span
  | none => none

/-- First value bound to a key in the decoded object.  Python's `json`
keeps the last duplicate key instead; no payload used in this
development has duplicate keys. -/
def lookupKey (k : Str) : List (Str × Str) → Option Str
  | [] => none
  | (k2, v) :: rest => if k2 = k then some v else lookupKey k rest

/-- The key `"took"`. -/
def tookKey : Str := ("took").data

/-- The key `"ts"`. -/
def tsKey : Str := ("ts").data

/-- The key `"expected-duration"`. -/
def expKey : Str := ("expected-duration").data

/-- The sentinel `"Unknown"` used as the `.get("ts", "Unknown")` default. -/
def unknownStr : Str := ("Unknown").data

/-- The token `"T"`. -/
def tTok : Str := ("T").data

/-- The token `"."`. -/
def dotTok : Str := (".").data

/-- Python's `timestamp.split(".")[0] if "." in timestamp else
timestamp.rstrip("Z")` guarded by `"T" in timestamp` (source lines
442–443): strips the fractional seconds or the trailing `Z`s from a
payload timestamp. -/
def tsClean (ts : Str) : Str :=
  if containsSub tTok ts then
    if containsSub dotTok ts then ts.takeWhile (fun c => c ≠ '.')
    else (ts.reverse.dropWhile (fun c => c = 'Z')).reverse
  else ts

/-- Per matched line of `msg_count` without a date filter (source lines
259–262): decode the brace span, read `ts` with the `"Unknown"` default,
and two-element-unpack the result of `split("T")`.  `.ok none` means the
line contributed no bucket (no decodable payload); `.ok (some d)` bumps
the counter of date bucket `d`; `.error` models the `ValueError` raised
when the split does not yield exactly two parts — which is precisely what
happens to the `"Unknown"` default. -/
def processMsgLine (pat line : Str) : Except Unit (Option Str) :=
  if containsSub pat line then
    match extractJsonLine line with
    | none => .ok none
    | some payload =>
      match splitOnChar 'T' ((lookupKey tsKey payload).getD unknownStr) with
      | [d, _] => .ok (some d)
      | _ => .error ()
  else .ok none

/-- One aggregated output row of `msg_count`, as consumed by `compare`
and `print_rows`: pod name, date (or `HH:MM`) bucket, count, and the
optional max-duration annotation of date-filtered mode. -/
structure Row where
  pod : Str
  date : Str
  count : Nat
  maxTime : Option Str
deriving DecidableEq

/-- Bucket keys in order of first appearance, as iterating a Python dict
built by insertion yields them (helper for `comparePods`). -/
def uniqAux : List Row → List Str → List Str
  | [], acc => acc
  | r :: rs, acc =>
    if r.date ∈ acc then uniqAux rs acc else uniqAux rs (acc ++ [r.date])

/-- Distinct `DATE` keys of the row list in first-occurrence order. -/
def uniqueDates (rows : List Row) : List Str := uniqAux rows []

/-- Model of `compare` (source lines 301–331): group the rows by their
`DATE` bucket, keep only buckets with more than one row, and print each
kept bucket's rows sorted by pod name (Python's stable `sorted`,
modelled by `List.insertionSort` over `lexLe`). -/
def comparePods (rows : List Row) : List (Str × List Row) :=
  (uniqueDates rows).filterMap (fun d =>
    if 2 ≤ (rows.filter (fun r => r.date = d)).length then
      some (d, List.insertionSort (fun a b => lexLe a.pod b.pod = true)
        (rows.filter (fun r => r.date = d)))
    else none)

/-- Maximum over a list of rendered-value widths. -/
def maxW (l : List Nat) : Nat := l.foldr (fun a b => max a b) 0

/-- The `max_widths[key]` computed by `print_rows` (source lines
283–287): the largest rendered width of any value bound to `key` in any
row.  Rows are association lists in key order, mirroring Python dicts,
with every value already rendered by `str`. -/
def widthOf (rows : List (List (Str × Str))) (k : Str) : Nat :=
  maxW (((rows.flatten.filter (fun kv => kv.1 = k)).map (fun kv => kv.2.length)))

/-- Pads a rendered field to the column width.  Python pads strings on
the right and numbers on the left; only the resulting width matters
below, so one direction is used. -/
def padTo (w : Nat) (s : Str) : Str := s ++ List.replicate (w - s.length) ' '

/-- Model of `print_rows` (source lines 281–298): fails on an empty row
list (`errors_list[0]` raises `IndexError`), otherwise returns the
header line — the first row's keys, each padded to its column width —
and one rendered line per row, each row printing its own keys padded to
the column widths computed across all rows.  No key-set validation of
any kind is performed. -/
def print_rows (rows : List (List (Str × Str))) :
    Except Unit (List Str × List (List Str)) :=
  match rows with
  | [] => .error ()
  | r0 :: _ =>
    .ok (r0.map (fun kv => padTo (widthOf rows kv.1) kv.1),
         rows.map (fun row => row.map (fun kv => padTo (widthOf rows kv.1) kv.2)))

/-- Attempts to match the timestamp regex
`(\d{4}-\d{2}-\d{2}T\d{2}:\d{2}:\d{2})(?=\.\d+Z|\s|\Z)` of
`calc_etcd_stats` at the head of the list, returning the captured
nineteen characters. -/
def lineTsAt : Str → Option Str
  | a :: b :: c :: d :: e :: f :: g :: h :: i :: j :: k :: l :: m :: n :: o :: p :: q :: r :: s :: rest =>
    if a.isDigit && b.isDigit && c.isDigit && d.isDigit && e = '-' &&
       f.isDigit && g.isDigit && h = '-' && i.isDigit && j.isDigit &&
       k = 'T' && l.isDigit && m.isDigit && n = ':' && o.isDigit &&
       p.isDigit && q = ':' && r.isDigit && s.isDigit &&
       (match rest with
        | [] => true
        | '.' :: r2 =>
          !(r2.takeWhile (fun c2 => c2.isDigit)).isEmpty &&
            (match r2.drop (r2.takeWhile (fun c2 => c2.isDigit)).length with
             | 'Z' :: _ => true
             | _ => false)
        | c2 :: _ => c2 = ' ' || c2 = '\t' || c2 = '\n' || c2 = '\r' ||
            c2 = '\x0b' || c2 = '\x0c')
    then some [a, b, c, d, e, f, g, h, i, j, k, l, m, n, o, p, q, r, s]
    else none
  | _ => none

/-- First match of the timestamp regex on a line, i.e. `findall(...)[0]`;
`none` doubles for `findall` returning the empty list. -/
def findLineTs : Str → Option Str
  | [] => none
  | c :: rest =>
    match lineTsAt (c :: rest) with
    | some ts => some ts
    | none => findLineTs rest

/-- Accumulator state of `calc_etcd_stats` (source lines 416–420).
`firstErr`/`lastErr` are `none` while still Python `None`; once a line
matches they hold the `findall` result, whose own emptiness is the inner
`Option`. -/
structure CalcState where
  firstErr : Option (Option Str)
  lastErr : Option (Option Str)
  count : Nat
  samples : List (ℚ × Str)
  expected : Option Str
deriving DecidableEq

/-- The initial `calc_etcd_stats` state. -/
def initState : CalcState := CalcState.mk none none 0 [] none

/-- Processing of one decoded payload inside `calc_etcd_stats` (source
lines 436–458): the unguarded `result["took"]` and
`result["expected-duration"]` accesses raise `KeyError` (`.error`) when
the field is missing; the duration branches mirror `_convert_took_to_ms`
inline, a `float` failure raising `ValueError`; a `took` value matching
no unit branch contributes no sample.  On success, returns the optional
sample and the expected-duration value. -/
def lineSample (payload : List (Str × Str)) : Except Unit (Option (ℚ × Str) × Str) :=
  match lookupKey tookKey payload with
  | none => .error ()
  | some took =>
    match lookupKey expKey payload with
    | none => .error ()
    | some exp =>
      if containsSub msTok took then
        match parseDecimal (removeSuffix msTok took) with
        | some v => .ok (some (v, tsClean ((lookupKey tsKey payload).getD unknownStr)), exp)
        | none => .error ()
      else if containsSub mTok took then
        match splitOnChar 'm' took with
        | [a, b] =>
          match parseDecimal a, parseDecimal (removeSuffix sTok b) with
          | some x, some y =>
            .ok (some (x * 60000 + y * 1000, tsClean ((lookupKey tsKey payload).getD unknownStr)), exp)
          | _, _ => .error ()
        | _ => .error ()
      else if containsSub sTok took then
        match parseDecimal (removeSuffix sTok took) with
        | some v => .ok (some (v * 1000, tsClean ((lookupKey tsKey payload).getD unknownStr)), exp)
        | none => .error ()
      else .ok (none, exp)

/-- One line of the `calc_etcd_stats` scan loop (source lines 421–458):
a line containing the pattern bumps the match count, refreshes the
last-occurrence `findall`, sets the first-occurrence `findall` once, and
then processes the decoded brace span (if any) through `lineSample`. -/
def calcLine (pat : Str) (st : CalcState) (line : Str) : Except Unit CalcState :=
  if containsSub pat line then
    match extractJsonLine line with
    | none =>
      .ok (CalcState.mk (match st.firstErr with
             | none => some (findLineTs line)
             | some f0 => some f0)
           (some (findLineTs line)) (st.count + 1) st.samples st.expected)
    | some payload =>
      match lineSample payload with
      | .error e => .error e
      | .ok (osamp, exp) =>
        .ok (CalcState.mk (match st.firstErr with
               | none => some (findLineTs line)
               | some f0 => some f0)
             (some (findLineTs line)) (st.count + 1) (st.samples ++ osamp.toList)
             (some exp))
  else .ok st

/-- The `calc_etcd_stats` scan loop over the lines of one file; an
exception on any line aborts the whole scan. -/
def calcAux (pat : Str) : CalcState → List Str → Except Unit CalcState
  | st, [] => .ok st
  | st, l :: ls =>
    match calcLine pat st l with
    | .error e => .error e
    | .ok st' => calcAux pat st' ls

/-- Model of `calc_etcd_stats` (source lines 413–458) up to the final
`print_stats` call: the accumulated state after scanning the file. -/
def calcEtcdStats (pat : Str) (lines : List Str) : Except Unit CalcState :=
  calcAux pat initState lines

/-- Whether the inline duration conversion of `calc_etcd_stats` would
succeed on this `took` value (the branch structure of `lineSample`,
with each `float` call required to parse). -/
def tookParses (took : Str) : Bool :=
  if containsSub msTok took then (parseDecimal (removeSuffix msTok took)).isSome
  else if containsSub mTok took then
    match splitOnChar 'm' took with
    | [a, b] => (parseDecimal a).isSome && (parseDecimal (removeSuffix sTok b)).isSome
    | _ => false
  else if containsSub sTok took then (parseDecimal (removeSuffix sTok took)).isSome
  else true

/-- The rendered statistics of `print_stats` (source lines 472–505). -/
structure StatsOut where
  firstTs : Str
  lastTs : Str
  maxVal : ℚ
  maxTs : Str
  minVal : ℚ
  medVal : ℚ
  avgVal : ℚ
  count : Nat
  expected : Option Str
deriving DecidableEq

/-- Python's `max(samples, key=first)` on a non-empty list: the first
entry attaining the maximal duration. -/
def maxByFst (p : ℚ × Str) (rest : List (ℚ × Str)) : ℚ × Str :=
  rest.foldl (fun cur q => if cur.1 < q.1 then q else cur) p

/-- Python's `statistics.median`: middle element of the sorted values,
or the mean of the two middle elements for an even count. -/
def medianQ (l : List ℚ) : ℚ :=
  let s := List.insertionSort (fun a b : ℚ => a ≤ b) l
  if s.length % 2 = 1 then s.getD (s.length / 2) 0
  else (s.getD (s.length / 2 - 1) 0 + s.getD (s.length / 2) 0) / 2

/-- Model of `print_stats` (source lines 472–505), in source evaluation
order: `first_err[0]` and `last_err[0]` raise on a `None` or empty
`findall` result, then `max(etcd_error_stats, ...)` raises `ValueError`
on an empty sample list — the undefined min/max/median case is never
tested for, it surfaces as this unchecked empty-reduction error.  On
success the reported record holds the maximum with its timestamp, the
minimum, the median, and the average `sum / (len + 1)`. -/
def print_stats (firstErr lastErr : Option (Option Str))
    (samples : List (ℚ × Str)) (count : Nat) (expected : Option Str) :
    Except Unit StatsOut :=
  match firstErr with
  | none => .error ()
  | some none => .error ()
  | some (some f) =>
    match lastErr with
    | none => .error ()
    | some none => .error ()
    | some (some l) =>
      match samples with
      | [] => .error ()
      | p :: rest =>
        .ok (StatsOut.mk f l (maxByFst p rest).1 (maxByFst p rest).2
          ((rest.map Prod.fst).foldl min p.1)
          (medianQ ((p :: rest).map Prod.fst))
          (((p :: rest).map Prod.fst).sum / (((p :: rest).length : ℚ) + 1))
          count expected)

/-- The statistics pass of `etcd_stats` over one file that contains the
pattern (`parse_file` returned true): scan, then report. -/
def statsRunFile (pat : Str) (lines : List Str) : Except Unit StatsOut :=
  match calcEtcdStats pat lines with
  | .error e => .error e
  | .ok st => print_stats st.firstErr st.lastErr st.samples st.count st.expected

/-- The catalog pattern `"lost leader"`. -/
def lostLeaderPat : Str := ("lost leader").data

/-- A one-line file content in which a catalog pattern occurs twice on
the same line. -/
def c1content : Str := ("lost leader lost leader").data

/-- The target pattern selected by `--ttl` and by the `--stats` pass. -/
def ttlPat : Str := ("apply request took too long").data

/-- The timestamp string captured by the line-timestamp regex in the
concrete log lines below. -/
def ts19 : Str := ("2023-08-30T10:00:00").data

/-- A rotated-log filename embedding the minimal datetime
`00010101-000000` (a datetime `strptime` accepts: it is `datetime.min`). -/
def rotName1 : Str := ("0.log.00010101-000000").data

/-- A rotated-log filename with no embedded `\d{8}-\d{6}` timestamp. -/
def rotName2 : Str := ("0.log.rotated").data

/-- A gzip-compressed rotated-log filename with an embedded timestamp. -/
def rotName3 : Str := ("0.log.20230830-101010.gz").data

/-- Directory listing refuting the claimed `.gz` exclusion and the
claimed untimestamped-first placement. -/
def c4cexListing : List Str := [rotName1, rotName2, rotName3]

/-- A well-behaved directory listing: every embedded timestamp is a
valid datetime no earlier than `datetime.min`. -/
def c4wListing : List Str :=
  [ ("1.log.20230905-120000").data
  , ("0.log.20230830-101010.gz").data
  , ("0.log.rotated").data ]

/-- A matched log line whose decoded payload has no `ts` field. -/
def c5line : Str :=
  ("2023-08-30 10:00:00 apply request took too long \x7b\"level\":\"warn\"\x7d").data

/-- The payload decoded from `c5line`. -/
def c5payload : List (Str × Str) := [(("level").data, ("warn").data)]

/-- A matched log line with a timestamp but no brace span at all: the
match counts, but no duration sample is collected. -/
def c6line : Str := ("2023-08-30T10:00:00.000Z apply request took too long").data

/-- The `calc_etcd_stats` state after scanning `[c6line]`: one match,
no samples. -/
def c6state : CalcState := CalcState.mk (some (some ts19)) (some (some ts19)) 1 [] none

/-- The pod name `"etcd-a"`. -/
def podA : Str := ("etcd-a").data

/-- The pod name `"etcd-b"`. -/
def podB : Str := ("etcd-b").data

/-- The minute bucket `"10:00"`. -/
def d1000 : Str := ("10:00").data

/-- The minute bucket `"10:05"`. -/
def d1005 : Str := ("10:05").data

/-- Two rows of the same pod sharing one bucket, as `msg_count` produces
when a pod's rotated logs and current log both contribute the bucket
(`rotated_logs` mode appends one batch of rows after the rotated loop
and a second batch after the current-log loop). -/
def c7cexRows : List Row := [Row.mk podA d1000 1 none, Row.mk podA d1000 2 none]

/-- Rows of two distinct pods sharing one bucket, listed in
reverse-alphabetical pod order. -/
def c7wRows : List Row := [Row.mk podB d1005 3 none, Row.mk podA d1005 4 none]

/-- The group `comparePods` emits for bucket `d1005` of `c7wRows`. -/
def c7wGroup : List Row := [Row.mk podA d1005 4 none, Row.mk podB d1005 3 none]

/-- Two rows with disjoint key sets (heterogeneous input). -/
def c8hetero : List (List (Str × Str)) :=
  [ [(("A").data, ("1").data)]
  , [(("B").data, ("22").data)] ]

/-- First row of the homogeneous renderer input. -/
def c8row1 : List (Str × Str) :=
  [ (("POD").data, podA), (("COUNT").data, ("7").data) ]

/-- Second row of the homogeneous renderer input. -/
def c8row2 : List (Str × Str) :=
  [ (("POD").data, podB), (("COUNT").data, ("12").data) ]

/-- A homogeneous renderer input: both rows share the key set. -/
def c8homog : List (List (Str × Str)) := [c8row1, c8row2]

/-- A matched line whose brace span fails to decode: it counts as a
match but yields no sample. -/
def c9line1 : Str :=
  ("2023-08-30T10:00:00.000Z apply request took too long \x7bnot json\x7d").data

/-- A matched line with no timestamp and no brace span. -/
def c9line3 : Str := ("apply request took too long plain").data

/-- A two-line file for the statistics invariant witness. -/
def c9lines : List Str := [c9line1, c9line3]

/-- The state after scanning `c9lines`: two matches, zero samples, and a
last-occurrence `findall` that came back empty. -/
def c9state : CalcState := CalcState.mk (some (some ts19)) (some none) 2 [] none

/-- A decoded payload carrying both required fields with a well-formed
duration. -/
def c10payload : List (Str × Str) :=
  [ (tookKey, ("150ms").data), (expKey, ("100ms").data) ]

/-- A matched line whose payload carries both required fields but a
malformed duration token `"zs"`: `float("z")` raises. -/
def c10badLine : Str :=
  ("apply request took too long \x7b\"took\":\"zs\",\"expected-duration\":\"100ms\"\x7d").data

/-- The payload decoded from `c10badLine`. -/
def c10badPayload : List (Str × Str) :=
  [ (tookKey, ("zs").data), (expKey, ("100ms").data) ]

/-- A matched line whose payload lacks the `took` field. -/
def c10missingLine : Str :=
  ("apply request took too long \x7b\"expected-duration\":\"100ms\"\x7d").data

/-- The duration samples `[100, 200, 300]` of the C2 instance. -/
def s123 : List (ℚ × Str) := [((100 : ℚ), ts19), ((200 : ℚ), ts19), ((300 : ℚ), ts19)]

/-- Totality of the string order used for pod-name sorting. -/
theorem lexLe_total : ∀ a b : Str, lexLe a b = true ∨ lexLe b a = true
  | [], _ => Or.inl rfl
  | _ :: _, [] => Or.inr rfl
  | a :: as, b :: bs => by
    unfold lexLe
    rcases Nat.lt_trichotomy a.toNat b.toNat with h | h | h
    · left
      simp [h]
    · have h1 : ¬ a.toNat < b.toNat := by omega
      have h2 : ¬ b.toNat < a.toNat := by omega
      simp only [h1, h2, if_false]
      exact lexLe_total as bs
    · right
      simp [h]

/-- Transitivity of the string order used for pod-name sorting. -/
theorem lexLe_trans : ∀ a b c : Str,
    lexLe a b = true → lexLe b c = true → lexLe a c = true := by
  intro a
  induction a with
  | nil => intro b c _ _; rfl
  | cons x xs ih =>
    intro b c hab hbc
    cases b with
    | nil => simp [lexLe] at hab
    | cons y ys =>
      cases c with
      | nil => simp [lexLe] at hbc
      | cons z zs =>
        unfold lexLe at hab hbc ⊢
        rcases Nat.lt_trichotomy x.toNat y.toNat with hxy | hxy | hxy
        · rcases Nat.lt_trichotomy y.toNat z.toNat with hyz | hyz | hyz
          · simp [show x.toNat < z.toNat by omega]
          · simp [show x.toNat < z.toNat by omega]
          · have h1 : ¬ y.toNat < z.toNat := by omega
            simp only [h1, if_false, hyz, if_true] at hbc
            cases hbc
        · rcases Nat.lt_trichotomy y.toNat z.toNat with hyz | hyz | hyz
          · simp [show x.toNat < z.toNat by omega]
          · have h1 : ¬ x.toNat < z.toNat := by omega
            have h2 : ¬ z.toNat < x.toNat := by omega
            have h3 : ¬ x.toNat < y.toNat := by omega
            have h4 : ¬ y.toNat < x.toNat := by omega
            have h5 : ¬ y.toNat < z.toNat := by omega
            have h6 : ¬ z.toNat < y.toNat := by omega
            simp only [h1, h2, if_false]
            simp only [h3, h4, if_false] at hab
            simp only [h5, h6, if_false] at hbc
            exact ih ys zs hab hbc
          · have h1 : ¬ y.toNat < z.toNat := by omega
            simp only [h1, if_false, hyz, if_true] at hbc
            cases hbc
        · have h1 : ¬ x.toNat < y.toNat := by omega
          simp only [h1, if_false, hxy, if_true] at hab
          cases hab

/-- C1 (amended): the Error Tally count for a catalog pattern is the
total number of non-overlapping occurrences of the pattern in the pod's
scanned file contents (a single line may contribute several), it is
reported exactly when positive, and zero-count patterns are omitted. -/
theorem C1_errorTally (files : List Str) (p : Str) (hp : p ∈ etcd_error_list) :
    (0 < tallyTotal files p → (p, tallyTotal files p) ∈ etcdTally files) ∧
    (tallyTotal files p = 0 → ∀ n, (p, n) ∉ etcdTally files) := by
  constructor
  · intro hpos
    exact List.mem_filterMap.mpr ⟨p, hp, by rw [if_pos hpos]⟩
  · intro h0 n hmem
    rcases List.mem_filterMap.mp hmem with ⟨q, _, hqe⟩
    split at hqe
    · next hq0 =>
      rw [Option.some.injEq, Prod.mk.injEq] at hqe
      rcases hqe with ⟨hqp, _⟩
      rw [hqp] at hq0
      omega
    · cases hqe

/-- Witness for C1 at a concrete pod file set and catalog pattern. -/
theorem C1_errorTally_witness :
    (lostLeaderPat ∈ etcd_error_list) ∧
    ((0 < tallyTotal [c1content] lostLeaderPat →
        (lostLeaderPat, tallyTotal [c1content] lostLeaderPat) ∈ etcdTally [c1content]) ∧
     (tallyTotal [c1content] lostLeaderPat = 0 →
        ∀ n, (lostLeaderPat, n) ∉ etcdTally [c1content])) :=
  ⟨by decide, C1_errorTally [c1content] lostLeaderPat (by decide)⟩

/-- Counterexample for C1 as stated: one scanned line contains the
catalog pattern `"lost leader"` twice, the Error Tally reports count 2
for it, yet only one scanned line contains the pattern — the reported
count is the occurrence count, not the line count. -/
theorem C1_counterexample :
    tallyTotal [c1content] lostLeaderPat = 2 ∧
    linesContainingCount lostLeaderPat [c1content] = 1 ∧
    (lostLeaderPat, 2) ∈ etcdTally [c1content] ∧ (2 : Nat) ≠ 1 := by decide

/-- C2 (confirmed): whenever `print_stats` reports, the reported average
is the sample sum divided by one more than the sample count; in
particular for samples 100, 200, 300 it reports 150, not 200. -/
theorem C2_average :
    (∀ (f l : Str) (samples : List (ℚ × Str)) (count : Nat) (expected : Option Str),
       samples ≠ [] →
       ∃ r, print_stats (some (some f)) (some (some l)) samples count expected =
           Except.ok r ∧
         r.avgVal = (samples.map Prod.fst).sum / ((samples.length : ℚ) + 1)) ∧
    (∃ r, print_stats (some (some ts19)) (some (some ts19)) s123 3 none = Except.ok r ∧
       r.avgVal = 150 ∧ r.avgVal ≠ 200) := by
  constructor
  · intro f l samples count expected hne
    rcases samples with _ | ⟨p, rest⟩
    · exact absurd rfl hne
    · exact ⟨_, rfl, rfl⟩
  · refine ⟨_, rfl, ?_, ?_⟩
    · show (s123.map Prod.fst).sum / ((s123.length : ℚ) + 1) = 150
      norm_num [s123]
    · show (s123.map Prod.fst).sum / ((s123.length : ℚ) + 1) ≠ 200
      norm_num [s123]

/-- Witness for C2 at a concrete non-empty sample list. -/
theorem C2_average_witness :
    ∃ r, print_stats (some (some ts19)) (some (some ts19)) [((100 : ℚ), ts19)] 1 none =
        Except.ok r ∧
      r.avgVal = (([((100 : ℚ), ts19)]).map Prod.fst).sum /
        ((([((100 : ℚ), ts19)]).length : ℚ) + 1) :=
  C2_average.1 ts19 ts19 [((100 : ℚ), ts19)] 1 none (by simp)

/-- C3 (amended): the three recognized duration shapes convert as the
spec says, testing the `ms` marker before the bare `m` marker; a token
containing none of the three markers falls through to the explicit zero
fallback — but an unrecognized token that does contain a marker raises a
conversion error instead (see the counterexample). -/
theorem C3_convert :
    convert_took_to_ms (("1500ms").data) = Except.ok 1500 ∧
    convert_took_to_ms (("2.5s").data) = Except.ok 2500 ∧
    convert_took_to_ms (("1m2.5s").data) = Except.ok 62500 ∧
    (∀ t, containsSub msTok t = false → containsSub mTok t = false →
       containsSub sTok t = false → convert_took_to_ms t = Except.ok 0) := by
  refine ⟨?_, ?_, ?_, ?_⟩
  · have h : convert_took_to_ms (("1500ms").data) = Except.ok ((1500 : ℕ) : ℚ) := rfl
    rw [h]
    norm_num
  · have h : convert_took_to_ms (("2.5s").data) =
        Except.ok ((((2 : ℕ) : ℚ) + ((5 : ℕ) : ℚ) / ((10 : ℚ) ^ (1 : ℕ))) * 1000) := rfl
    rw [h]
    push_cast
    norm_num
  · have h : convert_took_to_ms (("1m2.5s").data) =
        Except.ok (((1 : ℕ) : ℚ) * 60000 +
          ((((2 : ℕ) : ℚ) + ((5 : ℕ) : ℚ) / ((10 : ℚ) ^ (1 : ℕ))) * 1000)) := rfl
    rw [h]
    push_cast
    norm_num
  · intro t h1 h2 h3
    simp [convert_took_to_ms, h1, h2, h3]

/-- Witness for C3 at a concrete marker-free token. -/
theorem C3_convert_witness :
    (containsSub msTok (("xyz").data) = false) ∧
    convert_took_to_ms (("xyz").data) = Except.ok 0 :=
  ⟨by decide, C3_convert.2.2.2 (("xyz").data) (by decide) (by decide) (by decide)⟩

/-- Counterexample for C3 as stated: the token `"s"` matches none of the
three recognized shapes, yet the converter raises a `ValueError`
(`float("")`) instead of returning the zero fallback. -/
theorem C3_counterexample :
    convert_took_to_ms (("s").data) = Except.error () ∧
    Except.error () ≠ (Except.ok (0 : ℚ) : Except Unit ℚ) :=
  ⟨rfl, fun h => Except.noConfusion h⟩

/-- C4 (amended): on a directory listing in which every embedded
timestamp is a valid datetime (hence at least `datetime.min`, where
`strptime` would raise otherwise), rotated-log discovery returns exactly
the names matching the rotation regex — which does *not* exclude `.gz`
files, its lookahead being ineffective — ordered ascending by embedded
timestamp; a name lacking a timestamp carries the minimal key, so it
precedes every name whose timestamp exceeds the minimum (but not
necessarily one whose timestamp *equals* the minimum, see the
counterexample). -/
theorem C4_rotated (listing : List Str)
    (hval : ∀ x ∈ listing, minDatetime ≤ extract_datetime x) :
    (∀ x, x ∈ get_rotated_logs listing ↔ x ∈ listing ∧ rotMatch x = true) ∧
    List.Pairwise (fun a b => extract_datetime a ≤ extract_datetime b)
      (get_rotated_logs listing) ∧
    List.Pairwise (fun a b => extract_datetime a ≠ minDatetime → findRotTs b ≠ none)
      (get_rotated_logs listing) := by
  have hmem : ∀ x, x ∈ get_rotated_logs listing ↔ x ∈ listing ∧ rotMatch x = true := by
    intro x
    rw [get_rotated_logs,
      (List.perm_insertionSort (fun a b => extract_datetime a ≤ extract_datetime b)
        (listing.filter (fun n => rotMatch n))).mem_iff,
      List.mem_filter]
  haveI : IsTotal Str (fun a b => extract_datetime a ≤ extract_datetime b) :=
    ⟨fun a b => Nat.le_total _ _⟩
  haveI : IsTrans Str (fun a b => extract_datetime a ≤ extract_datetime b) :=
    ⟨fun a b c hab hbc => Nat.le_trans hab hbc⟩
  have hsorted : List.Pairwise (fun a b => extract_datetime a ≤ extract_datetime b)
      (get_rotated_logs listing) :=
    List.sorted_insertionSort (fun a b => extract_datetime a ≤ extract_datetime b)
      (listing.filter (fun n => rotMatch n))
  refine ⟨hmem, hsorted, ?_⟩
  refine hsorted.imp_of_mem ?_
  intro a b ha hb hle hmin hbnone
  have hkb : extract_datetime b = minDatetime := by
    rw [extract_datetime, hbnone]
    rfl
  have hka : minDatetime ≤ extract_datetime a := hval a ((hmem a).mp ha).1
  rw [hkb] at hle
  exact hmin (Nat.le_antisymm hle hka)

/-- Witness for C4 at a concrete valid-timestamp listing. -/
theorem C4_rotated_witness :
    (∀ x ∈ c4wListing, minDatetime ≤ extract_datetime x) ∧
    ((∀ x, x ∈ get_rotated_logs c4wListing ↔ x ∈ c4wListing ∧ rotMatch x = true) ∧
     List.Pairwise (fun a b => extract_datetime a ≤ extract_datetime b)
       (get_rotated_logs c4wListing) ∧
     List.Pairwise (fun a b => extract_datetime a ≠ minDatetime → findRotTs b ≠ none)
       (get_rotated_logs c4wListing)) :=
  ⟨by decide, C4_rotated c4wListing (by decide)⟩

/-- Counterexample for C4 as stated: the listing `c4cexListing` makes
discovery return the gzip-compressed `rotName3` (the regex
`[0-9]\.log\.+(?!\.gz)` matches it: after the greedy dot run the next
character is never a dot, so the negative lookahead always holds), and
it places the untimestamped `rotName2` *after* the timestamped
`rotName1`, whose embedded `00010101-000000` is the minimal datetime. -/
theorem C4_counterexample :
    get_rotated_logs c4cexListing = [rotName1, rotName2, rotName3] ∧
    containsSub ((".gz").data) rotName3 = true ∧
    findRotTs rotName1 = some minDatetime ∧
    findRotTs rotName2 = none := by decide

/-- C5 (code bug): a matched line whose decoded payload lacks the `ts`
field does not land in an `"Unknown"` bucket — the `"Unknown"` default
flows into `split("T")`, which yields one part, and the two-element
unpacking raises `ValueError`, aborting the scan. -/
theorem C5_unknown_bucket :
    extractJsonLine c5line = some c5payload ∧
    lookupKey tsKey c5payload = none ∧
    processMsgLine ttlPat c5line = Except.error () :=
  ⟨rfl, rfl, rfl⟩

/-- C6 (code bug): a file that contains the target pattern but yields
zero duration samples passes the `parse_file` gate and is scanned
successfully, and then `print_stats` fails on the unchecked
`max(etcd_error_stats, ...)` over the empty sample list instead of
detecting and reporting the undefined min/max/median condition. -/
theorem C6_empty_stats :
    containsSub ttlPat c6line = true ∧
    calcEtcdStats ttlPat [c6line] = Except.ok c6state ∧
    c6state.samples = [] ∧
    statsRunFile ttlPat [c6line] = Except.error () :=
  ⟨rfl, rfl, rfl, rfl⟩

/-- Membership in the first-occurrence bucket-key accumulator. -/
theorem uniqAux_mem : ∀ (rows : List Row) (acc : List Str) (d : Str),
    d ∈ uniqAux rows acc ↔ d ∈ acc ∨ ∃ r ∈ rows, r.date = d := by
  intro rows
  induction rows with
  | nil =>
    intro acc d
    simp [uniqAux]
  | cons r rs ih =>
    intro acc d
    unfold uniqAux
    by_cases h : r.date ∈ acc
    · rw [if_pos h, ih]
      constructor
      · rintro (hd | ⟨r2, hr2, hd2⟩)
        · exact Or.inl hd
        · exact Or.inr ⟨r2, List.mem_cons_of_mem _ hr2, hd2⟩
      · rintro (hd | ⟨r2, hr2, hd2⟩)
        · exact Or.inl hd
        · rcases List.mem_cons.mp hr2 with rfl | hr3
          · exact Or.inl (hd2 ▸ h)
          · exact Or.inr ⟨r2, hr3, hd2⟩
    · rw [if_neg h, ih]
      constructor
      · rintro (hd | ⟨r2, hr2, hd2⟩)
        · rcases List.mem_append.mp hd with hd1 | hd1
          · exact Or.inl hd1
          · have hde : d = r.date := by simpa using hd1
            exact Or.inr ⟨r, List.mem_cons_self _ _, hde.symm⟩
        · exact Or.inr ⟨r2, List.mem_cons_of_mem _ hr2, hd2⟩
      · rintro (hd | ⟨r2, hr2, hd2⟩)
        · exact Or.inl (List.mem_append.mpr (Or.inl hd))
        · rcases List.mem_cons.mp hr2 with rfl | hr3
          · exact Or.inl (List.mem_append.mpr (Or.inr (by simp [hd2])))
          · exact Or.inr ⟨r2, hr3, hd2⟩

/-- C7 (amended): the comparator emits a bucket exactly when at least
two *rows* carry it — rows of the same pod count separately, which
happens when a pod's rotated logs and its current log both contribute
the bucket — and every emitted group consists of precisely the rows of
that bucket, sorted by pod name. -/
theorem C7_compare (rows : List Row) (d : Str) :
    ((∃ g, (d, g) ∈ comparePods rows) ↔
       2 ≤ (rows.filter (fun r => r.date = d)).length) ∧
    (∀ g, (d, g) ∈ comparePods rows →
       List.Perm g (rows.filter (fun r => r.date = d)) ∧
       List.Pairwise (fun a b => lexLe a.pod b.pod = true) g) := by
  haveI : IsTotal Row (fun a b => lexLe a.pod b.pod = true) :=
    ⟨fun a b => lexLe_total a.pod b.pod⟩
  haveI : IsTrans Row (fun a b => lexLe a.pod b.pod = true) :=
    ⟨fun a b c => lexLe_trans a.pod b.pod c.pod⟩
  constructor
  · constructor
    · rintro ⟨g, hg⟩
      rcases List.mem_filterMap.mp hg with ⟨a, _, hae⟩
      split at hae
      · next h2 =>
        rw [Option.some.injEq, Prod.mk.injEq] at hae
        rcases hae with ⟨rfl, _⟩
        exact h2
      · cases hae
    · intro h2
      have hd : d ∈ uniqueDates rows := by
        rw [uniqueDates, uniqAux_mem]
        refine Or.inr ?_
        have hpos : 0 < (rows.filter (fun r => r.date = d)).length := by omega
        rcases List.exists_mem_of_length_pos hpos with ⟨r, hr⟩
        rcases List.mem_filter.mp hr with ⟨hr1, hr2⟩
        exact ⟨r, hr1, by simpa using hr2⟩
      exact ⟨_, List.mem_filterMap.mpr ⟨d, hd, by rw [if_pos h2]⟩⟩
  · intro g hg
    rcases List.mem_filterMap.mp hg with ⟨a, _, hae⟩
    split at hae
    · next h2 =>
      rw [Option.some.injEq, Prod.mk.injEq] at hae
      rcases hae with ⟨rfl, rfl⟩
      exact ⟨List.perm_insertionSort _ _, List.sorted_insertionSort _ _⟩
    · cases hae

/-- Witness for C7 at a concrete two-pod row list. -/
theorem C7_compare_witness :
    List.Perm c7wGroup (c7wRows.filter (fun r => r.date = d1005)) ∧
    List.Pairwise (fun a b => lexLe a.pod b.pod = true) c7wGroup :=
  (C7_compare c7wRows d1005).2 c7wGroup (by decide)

/-- Counterexample for C7 as stated: both rows of `c7cexRows` belong to
the single pod `podA`, yet their shared bucket is emitted by the
comparator — the filter counts rows, not distinct pods. -/
theorem C7_counterexample :
    comparePods c7cexRows = [(d1000, c7cexRows)] ∧
    (∀ r ∈ c7cexRows, r.pod = podA) := by decide

/-- An element of a width list is bounded by the column maximum. -/
theorem mem_maxW : ∀ (l : List Nat) (a : Nat), a ∈ l → a ≤ maxW l := by
  intro l
  induction l with
  | nil =>
    intro a ha
    cases ha
  | cons x xs ih =>
    intro a ha
    rcases List.mem_cons.mp ha with rfl | ha2
    · exact Nat.le_max_left _ _
    · exact Nat.le_trans (ih a ha2) (Nat.le_max_right x (maxW xs))

/-- C8 (amended): the renderer performs no key-set validation — any
non-empty row list, heterogeneous or not, is rendered, each row printing
its own keys (see the counterexample) — and every rendered field is
padded to exactly the maximum rendered width of its column computed
across all rows, with the header taken from the first row's key order. -/
theorem C8_renderer (rows : List (List (Str × Str))) (r0 : List (Str × Str))
    (rest : List (List (Str × Str))) (hrows : rows = r0 :: rest) :
    (∃ hdr body, print_rows rows = Except.ok (hdr, body) ∧
       hdr = r0.map (fun kv => padTo (widthOf rows kv.1) kv.1) ∧
       body = rows.map (fun row => row.map (fun kv => padTo (widthOf rows kv.1) kv.2))) ∧
    (∀ row ∈ rows, ∀ kv ∈ row,
       (padTo (widthOf rows kv.1) kv.2).length = widthOf rows kv.1) := by
  constructor
  · subst hrows
    exact ⟨_, _, rfl, rfl, rfl⟩
  · intro row hrow kv hkv
    have hle : kv.2.length ≤ widthOf rows kv.1 := by
      apply mem_maxW
      refine List.mem_map.mpr ⟨kv, ?_, rfl⟩
      refine List.mem_filter.mpr ⟨?_, by simp⟩
      exact List.mem_flatten.mpr ⟨row, hrow, hkv⟩
    simp only [padTo, List.length_append, List.length_replicate]
    omega

/-- Witness for C8 at a concrete homogeneous row list. -/
theorem C8_renderer_witness :
    (∃ hdr body, print_rows c8homog = Except.ok (hdr, body) ∧
       hdr = c8row1.map (fun kv => padTo (widthOf c8homog kv.1) kv.1) ∧
       body = c8homog.map (fun row => row.map (fun kv => padTo (widthOf c8homog kv.1) kv.2))) ∧
    (∀ row ∈ c8homog, ∀ kv ∈ row,
       (padTo (widthOf c8homog kv.1) kv.2).length = widthOf c8homog kv.1) :=
  C8_renderer c8homog c8row1 [c8row2] rfl

/-- Counterexample for C8 as stated: the two rows of `c8hetero` have
disjoint key sets, yet the renderer accepts them and prints the second
row's value under a header that never mentions its key, instead of
rejecting the input. -/
theorem C8_counterexample :
    c8hetero.map (fun row => row.map Prod.fst) = [[("A").data], [("B").data]] ∧
    ("A").data ≠ ("B").data ∧
    print_rows c8hetero = Except.ok ([("A").data], [[("1").data], [("22").data]]) :=
  ⟨by decide, by decide, rfl⟩

/-- One scan step preserves the match-count/sample-count invariant: a
matched line bumps the count by one and appends at most one sample. -/
theorem calcLine_bound (pat : Str) (st : CalcState) (line : Str) (st' : CalcState)
    (h : calcLine pat st line = Except.ok st')
    (hb : st.samples.length ≤ st.count) :
    st'.samples.length ≤ st'.count := by
  unfold calcLine at h
  split at h
  · split at h
    · injection h with h'
      subst h'
      simpa using Nat.le_succ_of_le hb
    · split at h
      · exact Except.noConfusion h
      · next osamp exp heq =>
        injection h with h'
        subst h'
        simp only [List.length_append]
        cases osamp
        · simp only [Option.toList, List.length_nil]
          omega
        · simp only [Option.toList, List.length_cons, List.length_nil]
          omega
  · injection h with h'
    subst h'
    exact hb

/-- The scan loop preserves the invariant across a whole file. -/
theorem calcAux_bound (pat : Str) (lines : List Str) :
    ∀ st st', calcAux pat st lines = Except.ok st' →
      st.samples.length ≤ st.count → st'.samples.length ≤ st'.count := by
  induction lines with
  | nil =>
    intro st st' h hb
    unfold calcAux at h
    injection h with h'
    subst h'
    exact hb
  | cons l ls ih =>
    intro st st' h hb
    unfold calcAux at h
    split at h
    · exact Except.noConfusion h
    · next st1 heq =>
      exact ih st1 st' h (calcLine_bound pat st l st1 heq hb)

/-- C9 (confirmed): in every completed statistics scan of one file the
total match count is at least the number of collected duration samples —
a matched line whose fragment fails to decode or whose duration has no
recognized shape still counts but contributes no sample, and each line
contributes at most one sample. -/
theorem C9_invariant (pat : Str) (lines : List Str) (st : CalcState)
    (h : calcEtcdStats pat lines = Except.ok st) :
    st.samples.length ≤ st.count :=
  calcAux_bound pat lines initState st h (Nat.le_refl 0)

/-- Witness for C9 at a concrete file with two payload-less matches. -/
theorem C9_invariant_witness :
    calcEtcdStats ttlPat c9lines = Except.ok c9state ∧
    c9state.samples.length ≤ c9state.count :=
  ⟨rfl, C9_invariant ttlPat c9lines c9state rfl⟩

/-- C10 (amended): a decoded payload carrying both the `took` and the
`expected-duration` fields *and* a duration token whose numeric part
parses is processed without exception; a payload missing either field
hits the unguarded dictionary access and raises a `KeyError` that aborts
the surrounding file scan (shown concretely in the last conjunct) — but
a payload with both fields and a malformed duration still raises (see
the counterexample), so field presence alone is not sufficient. -/
theorem C10_payload_fields :
    (∀ payload tk ed, lookupKey tookKey payload = some tk →
       lookupKey expKey payload = some ed → tookParses tk = true →
       ∃ r, lineSample payload = Except.ok r) ∧
    (∀ payload, lookupKey tookKey payload = none →
       lineSample payload = Except.error ()) ∧
    (∀ payload tk, lookupKey tookKey payload = some tk →
       lookupKey expKey payload = none → lineSample payload = Except.error ()) ∧
    calcEtcdStats ttlPat [c10missingLine, c6line] = Except.error () := by
  refine ⟨?_, ?_, ?_, rfl⟩
  · intro payload tk ed h1 h2 h3
    unfold lineSample
    rw [h1, h2]
    dsimp only
    unfold tookParses at h3
    by_cases hms : containsSub msTok tk = true
    · rw [if_pos hms] at h3 ⊢
      rcases hp : parseDecimal (removeSuffix msTok tk) with _ | v
      · rw [hp] at h3
        simp at h3
      · exact ⟨_, rfl⟩
    · rw [if_neg hms] at h3 ⊢
      by_cases hm : containsSub mTok tk = true
      · rw [if_pos hm] at h3 ⊢
        rcases hsp : splitOnChar 'm' tk with _ | ⟨a, _ | ⟨b, _ | ⟨c, rest⟩⟩⟩
        · rw [hsp] at h3
          simp at h3
        · rw [hsp] at h3
          simp at h3
        · rw [hsp] at h3
          dsimp only
          dsimp only at h3
          rcases hpa : parseDecimal a with _ | x
          · rw [hpa] at h3
            simp at h3
          · rcases hpb : parseDecimal (removeSuffix sTok b) with _ | y
            · rw [hpa, hpb] at h3
              simp at h3
            · exact ⟨_, rfl⟩
        · rw [hsp] at h3
          simp at h3
      · rw [if_neg hm] at h3 ⊢
        by_cases hs : containsSub sTok tk = true
        · rw [if_pos hs] at h3 ⊢
          rcases hp : parseDecimal (removeSuffix sTok tk) with _ | v
          · rw [hp] at h3
            simp at h3
          · exact ⟨_, rfl⟩
        · rw [if_neg hs]
          exact ⟨_, rfl⟩
  · intro payload h1
    unfold lineSample
    rw [h1]
  · intro payload tk h1 h2
    unfold lineSample
    rw [h1, h2]

/-- Witness for C10 at a concrete well-formed payload. -/
theorem C10_payload_fields_witness :
    (tookParses (("150ms").data) = true) ∧
    ∃ r, lineSample c10payload = Except.ok r :=
  ⟨rfl, C10_payload_fields.1 c10payload (("150ms").data) (("100ms").data) rfl rfl rfl⟩

/-- Counterexample for C10 as stated: the payload of `c10badLine`
decodes and carries both required fields, yet per-line processing raises
(`float("z")` fails) instead of completing without exception. -/
theorem C10_counterexample :
    extractJsonLine c10badLine = some c10badPayload ∧
    lookupKey tookKey c10badPayload = some (("zs").data) ∧
    lookupKey expKey c10badPayload = some (("100ms").data) ∧
    calcLine ttlPat initState c10badLine = Except.error () :=
  ⟨rfl, rfl, rfl, rfl⟩
